import Mathlib

/-!
Shallow embedding of the context-aware-assistant NLU pipeline
(`nlp_engine.py`, `intent_detectors.py`, `reasoning_engine.py`,
`action_engine.py`).  Text is modelled as `List Char`; Python floats
appearing in the pipeline (confidences, thresholds) are modelled as `ℚ`,
which is exact for every constant the code manipulates.  The regular
expressions of the entity extractor are translated pattern by pattern
into explicit matchers with Python `re` semantics (leftmost scan,
ordered alternation, greedy quantifiers); for every quantifier the
following context is disjoint from the quantified class, so the greedy
deterministic translation coincides with Python's backtracking engine.
-/

namespace CAA

abbrev Str := List Char

/-- `str.lower()` (ASCII, as exercised by the code). -/
def lower (t : Str) : Str := t.map Char.toLower

/-- Does `pat` occur at the front of `s`?  (case-sensitive) -/
def leads : Str → Str → Bool
  | [], _ => true
  | _ :: _, [] => false
  | p :: ps, c :: cs => (p == c) && leads ps cs

/-- Python `pat in s` substring test (case-sensitive). -/
def hasSub (pat : Str) : Str → Bool
  | [] => leads pat []
  | c :: cs => leads pat (c :: cs) || hasSub pat cs

/-- Does any of the given phrases occur in `t`?  (`any(p in t for p in pats)`) -/
def containsAny (t : Str) (pats : List Str) : Bool :=
  pats.any fun p => hasSub p t

/-- `detect_intent_rule_based` from `nlp_engine.py` (lines 137-170):
priority-ordered keyword rules over the lower-cased text. -/
def detect_intent_rule_based (text : Str) : Str × ℚ :=
  let t := lower text
  -- PRIORITY 1: retrieval / memory recall
  if containsAny t ["what have i".data, "what did".data, "did i mention".data,
      "do you remember".data, "what have you told".data, "tell me about".data] then
    ("retrieve_task".data, mkRat 8 10)
  else if leads ("what".data) t &&
      containsAny t ["told".data, "said".data, "mentioned".data, "earlier".data] then
    ("retrieve_task".data, mkRat 8 10)
  -- PRIORITY 2: preference (but NOT in retrieve contexts)
  else if hasSub ("prefer".data) t && !hasSub ("remember".data) t then
    ("set_preference".data, mkRat 9 10)
  -- PRIORITY 3: reminder / alert
  else if containsAny t ["remind".data, "reminder".data, "alert".data] then
    ("set_reminder".data, mkRat 9 10)
  -- PRIORITY 4: meeting scheduling; the inner guard falls through to priority 5
  else if containsAny t ["schedule".data, "meeting".data, "appoint".data] &&
      !hasSub ("did i mention".data) t && !hasSub ("what".data) t then
    ("schedule_meeting".data, mkRat 9 10)
  -- PRIORITY 5: generic task creation
  else if containsAny t ["submit".data, "attend".data, "complete".data, "finish".data,
      "send".data, "call".data, "pay".data, "buy".data, "prepare".data,
      "visit".data, "meet".data] then
    ("create_task".data, mkRat 85 100)
  else ("unknown".data, mkRat 3 10)

/-! ### Entity extraction (`analyze_input`, `nlp_engine.py` lines 14-88)

Each regex of the source is translated into an explicit matcher
`Option Char → Str → Option Nat`: given the character preceding the
current position (for `\b`) and the remaining text, it returns the
length of the match at this position, or `none`.  `findIter` then
reproduces `re.finditer`: scan left to right, emit non-overlapping
matches, resume after each match. -/

/-- Python `\d` (ASCII as exercised). -/
def isDigitC (c : Char) : Bool := c.isDigit

/-- Letters; with `re.IGNORECASE`, `[A-Z]` and `[a-z]` both match any letter. -/
def isAlphaC (c : Char) : Bool := c.isAlpha

/-- Python `\s` (the inputs only use the blank). -/
def isSpaceC (c : Char) : Bool := c.isWhitespace

/-- Python `\w`: letters, digits, underscore. -/
def isWordC (c : Char) : Bool := c.isAlpha || c.isDigit || c == '_'

/-- Length of the maximal run of characters satisfying `p` at the front. -/
def runLen (p : Char → Bool) : Str → Nat
  | [] => 0
  | c :: cs => if p c then runLen p cs + 1 else 0

/-- Case-insensitive literal at the front of `s`. -/
def leadsCI : Str → Str → Bool
  | [], _ => true
  | _ :: _, [] => false
  | p :: ps, c :: cs => (p.toLower == c.toLower) && leadsCI ps cs

/-- `\b` when the previous character was part of a word: the next character
(if any) must not be a word character. -/
def boundaryB (next : Option Char) : Bool :=
  match next with
  | none => true
  | some c => !(isWordC c)

/-- `\b` before a word character: the previous character (if any) must not
be a word character. -/
def boundaryStart (prev : Option Char) : Bool :=
  match prev with
  | none => true
  | some c => !(isWordC c)

/-- First alternative of an ordered, case-insensitive alternation that
matches at the front of `s` (no following context). -/
def firstAltCI : List Str → Str → Option Nat
  | [], _ => none
  | a :: rest, s => if leadsCI a s then some a.length else firstAltCI rest s

/-- `re.finditer` driver: `m prev s` is the match length at the current
position.  A successful match of length `n+1` is emitted and the scan
resumes after it; otherwise the scan advances one character.  (All the
embedded patterns match at least one character.) -/
def findFrom (m : Option Char → Str → Option Nat) : Nat → Option Char → Str → List Str
  | 0, _, _ => []
  | _ + 1, _, [] => []
  | fuel + 1, prev, c :: cs =>
    match m prev (c :: cs) with
    | some (n + 1) =>
      let mtext := List.take (n + 1) (c :: cs)
      mtext :: findFrom m fuel mtext.getLast? (List.drop n cs)
    | _ => findFrom m fuel (some c) cs

def findIter (m : Option Char → Str → Option Nat) (s : Str) : List Str :=
  findFrom m s.length none s

/-- The month alternation of time patterns 1 and 7, in source order:
full names first, then the three-letter abbreviations. -/
def monthAlts : List Str :=
  ["january".data, "february".data, "march".data, "april".data, "may".data,
   "june".data, "july".data, "august".data, "september".data, "october".data,
   "november".data, "december".data,
   "jan".data, "feb".data, "mar".data, "apr".data, "may".data, "jun".data,
   "jul".data, "aug".data, "sep".data, "oct".data, "nov".data, "dec".data]

/-- Time pattern 1 tail `\s+\d{4}` after the month name. -/
def p1Tail (s3 : Str) : Option Nat :=
  let w2 := runLen isSpaceC s3
  if w2 = 0 then none
  else if 4 ≤ runLen isDigitC (s3.drop w2) then some (w2 + 4) else none

/-- Month alternation followed by `\s+\d{4}`: the alternation backtracks
to the next alternative when the tail fails. -/
def p1Months : List Str → Str → Option Nat
  | [], _ => none
  | a :: rest, s2 =>
    if leadsCI a s2 then
      match p1Tail (s2.drop a.length) with
      | some k => some (a.length + k)
      | none => p1Months rest s2
    else p1Months rest s2

/-- Leading `\d{1,2}` followed by `\s+`.  The context after the digits can
never be a digit, so Python's backtracking over `{1,2}` is equivalent to
the greedy capped run. -/
def dayBlanks (s : Str) : Option (Nat × Nat) :=
  let d := min (runLen isDigitC s) 2
  if d = 0 then none else
  let w := runLen isSpaceC (s.drop d)
  if w = 0 then none else some (d, w)

/-- Pattern 1: `\d{1,2}\s+(month)\s+\d{4}`. -/
def matchP1 (_ : Option Char) (s : Str) : Option Nat :=
  match dayBlanks s with
  | some (d, w) => (p1Months monthAlts ((s.drop d).drop w)).map fun k => d + w + k
  | none => none

/-- Pattern 2: `\d{1,2}:\d{2}\s*(?:am|pm|AM|PM)` (compiled IGNORECASE). -/
def matchP2 (_ : Option Char) (s : Str) : Option Nat :=
  let d := min (runLen isDigitC s) 2
  if d = 0 then none else
  match s.drop d with
  | ':' :: s2 =>
    if 2 ≤ runLen isDigitC s2 then
      let s3 := s2.drop 2
      let w := runLen isSpaceC s3
      let s4 := s3.drop w
      if leadsCI ("am".data) s4 || leadsCI ("pm".data) s4 then
        some (d + 1 + 2 + w + 2)
      else none
    else none
  | _ => none

/-- Pattern 3: `\d{1,2}\s+(?:am|pm|AM|PM)`. -/
def matchP3 (_ : Option Char) (s : Str) : Option Nat :=
  match dayBlanks s with
  | some (d, w) =>
    let s2 := (s.drop d).drop w
    if leadsCI ("am".data) s2 || leadsCI ("pm".data) s2 then some (d + w + 2)
    else none
  | none => none

/-- Pattern 4: `\d{1,2}/\d{1,2}/\d{2,4}`. -/
def matchP4 (_ : Option Char) (s : Str) : Option Nat :=
  let r1 := runLen isDigitC s
  if r1 = 0 || 2 < r1 then none else
  match s.drop r1 with
  | '/' :: s2 =>
    let r2 := runLen isDigitC s2
    if r2 = 0 || 2 < r2 then none else
    match s2.drop r2 with
    | '/' :: s3 =>
      let r3 := runLen isDigitC s3
      if r3 < 2 then none else some (r1 + 1 + r2 + 1 + min r3 4)
    | _ => none
  | _ => none

/-- Pattern 5: `(?:today|tomorrow|tonight|yesterday)`. -/
def matchP5 (_ : Option Char) (s : Str) : Option Nat :=
  firstAltCI ["today".data, "tomorrow".data, "tonight".data, "yesterday".data] s

/-- Pattern 6: weekday names. -/
def matchP6 (_ : Option Char) (s : Str) : Option Nat :=
  firstAltCI ["monday".data, "tuesday".data, "wednesday".data, "thursday".data,
    "friday".data, "saturday".data, "sunday".data] s

/-- Pattern 7: `\d{1,2}\s+(month)` (fallback without year). -/
def matchP7 (_ : Option Char) (s : Str) : Option Nat :=
  match dayBlanks s with
  | some (d, w) => (firstAltCI monthAlts ((s.drop d).drop w)).map fun k => d + w + k
  | none => none

def timePatterns : List (Option Char → Str → Option Nat) :=
  [matchP1, matchP2, matchP3, matchP4, matchP5, matchP6, matchP7]

/-- All spans produced by `re.finditer` for the seven time patterns, in
the order the source's nested loops visit them. -/
def timeMatches (text : Str) : List Str :=
  (timePatterns.map fun p => findIter p text).flatten

inductive EKind where
  | TIME : EKind
  | PERSON : EKind
deriving DecidableEq

/-- Lines 35-37 of `nlp_engine.py`: make `m` the dominant time and append
it as a TIME entity unless the list's last entry is already an identical
TIME entity (`if not entities or entities[-1][1] != "TIME" or
entities[-1][0] != time_str`). -/
def pushTime (entities : List (Str × EKind)) (m : Str) :
    List (Str × EKind) × Option Str :=
  match entities.getLast? with
  | some e => if e = (m, EKind.TIME) then (entities, some m)
              else (entities ++ [(m, EKind.TIME)], some m)
  | none => ([(m, EKind.TIME)], some m)

/-- The body of the time loop (`nlp_engine.py` lines 31-37) for one match:
if no dominant time is set, or the match is at least as long as the
dominant one, it becomes dominant and is (conditionally) appended. -/
def timeStep (st : List (Str × EKind) × Option Str) (m : Str) :
    List (Str × EKind) × Option Str :=
  match st.2 with
  | none => pushTime st.1 m
  | some t => if t.length ≤ m.length then pushTime st.1 m else st

/-- The full temporal-extraction section. -/
def timeSection (text : Str) : List (Str × EKind) × Option Str :=
  (timeMatches text).foldl timeStep ([], none)

/-! ### Person extraction (`nlp_engine.py` lines 39-88) -/

/-- The honorific alternation of strategy 1, in source order, each
followed by the closing `\b`.  When the boundary fails after a literal
match the engine moves to the next alternative. -/
def honorAfter : List Str → Str → Option Nat
  | [], _ => none
  | a :: rest, s =>
    if leadsCI a s && boundaryB ((s.drop a.length).head?) then some a.length
    else honorAfter rest s

def honorifics : List Str :=
  ["mam".data, "sir".data, "madam".data, "mrs".data, "mr".data, "ms".data,
   "dr".data, "prof".data, "dad".data, "mom".data]

/-- Strategy 1: `\b[A-Z][a-z]+(?:\s+(?:mam|sir|madam|mrs|mr|ms|dr|prof|dad|mom))\b`,
compiled with IGNORECASE, so both bracket classes match any letter. -/
def matchS1 (prev : Option Char) (s : Str) : Option Nat :=
  if boundaryStart prev then
    match s with
    | c :: cs =>
      if isAlphaC c then
        let r := runLen isAlphaC cs
        if r = 0 then none else
        let s1 := cs.drop r
        let w := runLen isSpaceC s1
        if w = 0 then none else
        (honorAfter honorifics (s1.drop w)).map fun k => 1 + r + w + k
      else none
    | [] => none
  else none

/-- `re.finditer` driver that also reports a captured group: the matcher
returns the full match length together with the group text. -/
def findFromG (m : Option Char → Str → Option (Nat × Str)) :
    Nat → Option Char → Str → List Str
  | 0, _, _ => []
  | _ + 1, _, [] => []
  | fuel + 1, prev, c :: cs =>
    match m prev (c :: cs) with
    | some (n + 1, g) =>
      let mtext := List.take (n + 1) (c :: cs)
      g :: findFromG m fuel mtext.getLast? (List.drop n cs)
    | _ => findFromG m fuel (some c) cs

def findIterG (m : Option Char → Str → Option (Nat × Str)) (s : Str) : List Str :=
  findFromG m s.length none s

/-- Strategy 2 tail `\s+([a-z]+)\b` (IGNORECASE: the group matches any
letters; the boundary then rules out a following digit or underscore). -/
def s2Tail (s1 : Str) : Option (Nat × Str) :=
  let w := runLen isSpaceC s1
  if w = 0 then none else
  let s2 := s1.drop w
  let l := runLen isAlphaC s2
  if l = 0 then none else
  if boundaryB ((s2.drop l).head?) then some (w + l, s2.take l) else none

/-- The preposition alternation of strategy 2 (`to|with|from|by|for`,
source order, no leading `\b`), with backtracking into the tail. -/
def s2Alt : List Str → Str → Option (Nat × Str)
  | [], _ => none
  | a :: rest, s =>
    if leadsCI a s then
      match s2Tail (s.drop a.length) with
      | some (k, g) => some (a.length + k, g)
      | none => s2Alt rest s
    else s2Alt rest s

def preps : List Str :=
  ["to".data, "with".data, "from".data, "by".data, "for".data]

/-- Strategy 2: `(?:to|with|from|by|for)\s+([a-z]+)\b` with IGNORECASE. -/
def matchS2 (_ : Option Char) (s : Str) : Option (Nat × Str) :=
  s2Alt preps s

/-- The stop-list of strategy 2 (`excluded_words`, lines 55-63): a Python
set of lowercase strings, tested with case-sensitive membership. -/
def excluded2 : List Str :=
  ["the".data, "you".data, "me".data, "him".data, "her".data, "it".data,
   "them".data, "time".data, "submit".data,
   "morning".data, "afternoon".data, "evening".data, "night".data,
   "today".data, "tomorrow".data, "yesterday".data,
   "monday".data, "tuesday".data, "wednesday".data, "thursday".data,
   "friday".data, "saturday".data, "sunday".data,
   "january".data, "february".data, "march".data, "april".data, "may".data,
   "june".data, "july".data, "august".data,
   "september".data, "october".data, "november".data, "december".data,
   "jan".data, "feb".data, "mar".data, "apr".data,
   "jun".data, "jul".data, "aug".data, "sep".data, "oct".data, "nov".data,
   "dec".data, "tonight".data, "date".data,
   "day".data, "hour".data, "minute".data, "week".data, "month".data,
   "year".data, "pm".data, "am".data]

/-- Strategy 2 loop: the first captured group that passes the filter wins. -/
def firstValid2 : List Str → Option Str
  | [] => none
  | g :: rest => if g ∉ excluded2 ∧ 2 < g.length then some g else firstValid2 rest

/-- Strategy 3: `\b[A-Z][a-z]+\b`, compiled WITHOUT flags: a genuinely
capitalized word. -/
def matchS3 (prev : Option Char) (s : Str) : Option Nat :=
  if boundaryStart prev then
    match s with
    | c :: cs =>
      if c.isUpper then
        let r := runLen Char.isLower cs
        if r = 0 then none else
        if boundaryB ((cs.drop r).head?) then some (1 + r) else none
      else none
    | [] => none
  else none

/-- The stop-list of strategy 3 (`excluded_words`, lines 76-84). -/
def excluded3 : List Str :=
  ["I".data, "The".data, "This".data, "That".data, "What".data, "When".data,
   "Where".data, "Why".data, "How".data, "You".data, "Submit".data,
   "Alert".data, "Remind".data, "Your".data, "Form".data, "Morning".data,
   "Afternoon".data, "Evening".data, "Night".data,
   "Today".data, "Tomorrow".data, "Yesterday".data, "Monday".data,
   "Tuesday".data, "Wednesday".data, "Thursday".data,
   "Friday".data, "Saturday".data, "Sunday".data, "January".data,
   "February".data, "March".data, "April".data, "June".data,
   "July".data, "August".data, "September".data, "October".data,
   "November".data, "December".data, "Jan".data, "Feb".data,
   "Mar".data, "Apr".data, "Jun".data, "Jul".data, "Aug".data, "Sep".data,
   "Oct".data, "Nov".data, "Dec".data, "Tonight".data,
   "Date".data, "Time".data, "Day".data, "Hour".data, "Minute".data,
   "Week".data, "Month".data, "Year".data, "Pm".data, "Am".data]

/-- Strategy 3 loop: first capitalized word passing the filter. -/
def firstValid3 : List Str → Option Str
  | [] => none
  | g :: rest => if g ∉ excluded3 ∧ 2 < g.length then some g else firstValid3 rest

/-- The person-extraction section: strategy 1's loop appends every
honorific match (so the last one stays dominant, `person_entity` being
reassigned per iteration); strategies 2 and 3 run only when no person
was set (`if not person_entity`) and append at most one entity each. -/
def personSection (text : Str) : List (Str × EKind) × Option Str :=
  match findIter matchS1 text with
  | [] =>
    (match firstValid2 (findIterG matchS2 text) with
     | some n => ([(n, EKind.PERSON)], some n)
     | none =>
       match firstValid3 (findIter matchS3 text) with
       | some n => ([(n, EKind.PERSON)], some n)
       | none => ([], none))
  | m1 => (m1.map fun n => (n, EKind.PERSON), m1.getLast?)

/-- The entity-extraction part of `analyze_input`: the time section runs
first, then the person section appends to the same entity list. -/
def analyzeEntities (text : Str) :
    List (Str × EKind) × Option Str × Option Str :=
  let ts := timeSection text
  let ps := personSection text
  (ts.1 ++ ps.1, ts.2, ps.2)

/-! ### Backend adapter layer (`intent_detectors.py`)

The three alternate backends call external collaborators (a sentence
embedding model, a zero-shot pipeline, the remote Claude API).  Those
collaborators are modelled as an explicit environment `Env`; `none` in a
field stands for the corresponding initialization or inference failure,
which the source converts into the `("unknown", 0.3)` default.  Python
key strings are modelled as `Option Str` with `none` for absent (or
empty, hence falsy) credentials. -/

/-- The six intent labels, the keys of `INTENT_CONFIG`. -/
def intents6 : List Str :=
  ["set_preference".data, "set_reminder".data, "schedule_meeting".data,
   "retrieve_task".data, "create_task".data, "unknown".data]

/-- `template_to_intent.get(label, "unknown")`: the inverse dictionary of
the `INTENT_CONFIG` templates. -/
def templateToIntent (label : Str) : Str :=
  if label = ("User is setting their preference or configuration".data) then
    "set_preference".data
  else if label = ("User is setting a reminder or alarm".data) then
    "set_reminder".data
  else if label = ("User is scheduling a meeting or appointment".data) then
    "schedule_meeting".data
  else if label = ("User is retrieving or asking about stored information".data) then
    "retrieve_task".data
  else if label = ("User is creating a new task or to-do item".data) then
    "create_task".data
  else if label = ("User intent is unclear or unknown".data) then
    "unknown".data
  else "unknown".data

/-- `detect_intent_huggingface`: `top` is the first (label, score) pair
returned by the zero-shot pipeline; `none` covers a failed
initialization (`classifier is None`) and an inference exception,
both of which yield the `("unknown", 0.3)` default. -/
def detect_intent_huggingface (top : Option (Str × ℚ)) : Str × ℚ :=
  match top with
  | none => ("unknown".data, mkRat 3 10)
  | some (label, score) => (templateToIntent label, score)

/-- `INTENT_EXAMPLES`, in dict insertion order. -/
def INTENT_EXAMPLES : List (Str × List Str) :=
  [("set_preference".data,
     ["I prefer coffee over tea".data, "Set my timezone to EST".data,
      "I like quiet hours from 9-5".data]),
   ("set_reminder".data,
     ["Remind me about the meeting".data, "Alert me in 30 minutes".data,
      "Set an alarm for 6 AM".data]),
   ("schedule_meeting".data,
     ["Schedule a meeting for tomorrow".data, "Book an appointment with John".data,
      "Arrange a call next week".data]),
   ("retrieve_task".data,
     ["What did I say earlier".data, "Did I mention anything about the project".data,
      "Do you remember my preferences".data]),
   ("create_task".data,
     ["Submit the report by Friday".data, "Call the client".data,
      "Prepare the presentation".data, "Send an email".data])]

/-- Body of the inner example loop: keep the best (intent, score) so far,
replacing it on a strictly greater similarity. -/
def stStep (sims : Str → ℚ) (intent : Str) (best : Str × ℚ) (ex : Str) : Str × ℚ :=
  if best.2 < sims ex then (intent, sims ex) else best

/-- The nested loops of `detect_intent_sentence_transformers`, starting
from `("unknown", 0.3)`; `sims ex` is the cosine similarity of the user
text with the example `ex`, computed by the external model. -/
def stScan (sims : Str → ℚ) : Str × ℚ :=
  INTENT_EXAMPLES.foldl (fun best p => p.2.foldl (stStep sims p.1) best)
    ("unknown".data, mkRat 3 10)

/-- `detect_intent_sentence_transformers`: `none` covers a failed
initialization (`model is None`) and an inference exception. -/
def detect_intent_sentence_transformers (sims : Option (Str → ℚ)) : Str × ℚ :=
  match sims with
  | none => ("unknown".data, mkRat 3 10)
  | some f => stScan f

/-- Python `a or b` on credential strings (an absent or empty key is
falsy and modelled as `none`). -/
def pyOr (a b : Option Str) : Option Str :=
  match a with
  | some x => some x
  | none => b

/-- `detect_intent_claude`: `apiKey or os.getenv("ANTHROPIC_API_KEY")`;
without a key it warns and returns the default.  `resp` is the parsed
JSON reply `(intent, confidence)` of the remote model (`.get` defaults
already applied); `none` covers an API exception or an unparseable
reply.  A label outside `INTENT_CONFIG` is clamped to `unknown`/0.3 —
the confidence of a recognized label is NOT clamped. -/
def detect_intent_claude (apiKey envKey : Option Str) (resp : Option (Str × ℚ)) :
    Str × ℚ :=
  match pyOr apiKey envKey with
  | none => ("unknown".data, mkRat 3 10)
  | some _ =>
    match resp with
    | none => ("unknown".data, mkRat 3 10)
    | some (intent, conf) =>
      if intent ∈ intents6 then (intent, conf) else ("unknown".data, mkRat 3 10)

/-- External collaborators of one `analyze_input` call. -/
structure Env where
  /-- `os.getenv("ANTHROPIC_API_KEY")` (none = unset or empty). -/
  envApiKey : Option Str
  /-- sentence-transformers similarity oracle; none = init/inference failure. -/
  stSims : Option (Str → ℚ)
  /-- top (label, score) of the zero-shot pipeline; none = init/inference failure. -/
  hfTop : Option (Str × ℚ)
  /-- parsed Claude reply; none = API or JSON failure. -/
  claudeResp : Option (Str × ℚ)
  /-- `from intent_detectors import ...` raised ImportError. -/
  moduleFails : Bool

/-- `TransformerIntentDetector(backend, api_key).detect(text)`: dispatch
on the backend tag (the constructor's `api_key or env` composed with the
same fallback inside `detect_intent_claude` is `pyOr` applied once). -/
def detectorDetect (env : Env) (backend : Str) (apiKey : Option Str) : Str × ℚ :=
  if backend = ("huggingface".data) then detect_intent_huggingface env.hfTop
  else if backend = ("sentence_transformers".data) then
    detect_intent_sentence_transformers env.stSims
  else if backend = ("claude".data) then
    detect_intent_claude apiKey env.envApiKey env.claudeResp
  else ("unknown".data, mkRat 3 10)

/-- `backend_map.get(intent_backend, "sentence_transformers")`. -/
def backendMap (ib : Str) : Str :=
  if ib = ("Sentence Transformers".data) then "sentence_transformers".data
  else if ib = ("HuggingFace".data) then "huggingface".data
  else if ib = ("Claude API".data) then "claude".data
  else "sentence_transformers".data

/-- The intent-selection part of `analyze_input` (lines 90-126).  When the
selected backend returns `unknown` below 0.5 and the backend is claude
without an argument key, the source raises
`ValueError("Claude API key required")` — but that raise sits inside the
same `try` whose `except Exception` clause catches it, warns, and falls
back to `detect_intent_rule_based`; so both branches of the inner test
end in the rule-based result. -/
def analyzeIntent (env : Env) (text : Str) (intentBackend claudeApiKey : Option Str) :
    Str × ℚ :=
  match intentBackend with
  | none => detect_intent_rule_based text
  | some ib =>
    if ib = ("Rule-Based".data) then detect_intent_rule_based text
    else
      let backend := backendMap ib
      let apiKey := if backend = ("claude".data) then claudeApiKey else none
      if env.moduleFails then detect_intent_rule_based text
      else
        let r := detectorDetect env backend apiKey
        if r.1 = ("unknown".data) ∧ r.2 < mkRat 1 2 then
          detect_intent_rule_based text
        else r

/-- The dict returned by `analyze_input`. -/
structure AnalyzeResult where
  intent : Str
  entities : List (Str × EKind)
  time : Option Str
  person : Option Str
  confidence : ℚ
deriving DecidableEq

/-- `analyze_input(user_input, intent_backend, claude_api_key)`. -/
def analyze_input (env : Env) (userInput : Str)
    (intentBackend claudeApiKey : Option Str) : AnalyzeResult :=
  let es := analyzeEntities userInput
  let ic := analyzeIntent env userInput intentBackend claudeApiKey
  ⟨ic.1, es.1, es.2.1, es.2.2, ic.2⟩

/-! ### Reasoning / planner (`reasoning_engine.py`) -/

def CONFIDENCE_THRESHOLD : ℚ := mkRat 75 100

/-- The result of the external `semantic_search(user_input)` collaborator
(`vector_memory`, outside this repository): a dict with `match` and
`score` keys, read back defensively by the dispatcher. -/
structure SearchCtx where
  found : Option Str := none
  score : Option ℚ := none
deriving DecidableEq

/-- The `reasoning` strings of the planner, abstracted constructor by
constructor (each holds the data interpolated into the source's
f-string; no claim depends on the rendered text). -/
inductive Reasoning where
  | belowThreshold (c : ℚ)
  | settingPref
  | foundPref (p : Str)
  | noPref
  | reminderParts (t p : Option Str)
  | recallFound (score : ℚ)
  | recallNone
  | taskParts (t p : Option Str)
  | notRecognized
deriving DecidableEq

/-- An action-plan dict.  Keys a branch does not set are `none`. -/
structure ActionData where
  action : Option Str := none
  key : Option Str := none
  value : Option Str := none
  time : Option Str := none
  task : Option Str := none
  person : Option Str := none
  context : Option SearchCtx := none
  why : Option Reasoning := none
deriving DecidableEq

/-- `reason(intent_data, user_input)`.  `pref` is the result of the
external `get_preference("meeting_time")` read and `search` the result
of `semantic_search(user_input)` (an empty or missing result is falsy,
modelled `none`). -/
def reason (pref : Option Str) (search : Option SearchCtx)
    (d : AnalyzeResult) (ui : Str) : ActionData :=
  let confidence := d.confidence
  if confidence < CONFIDENCE_THRESHOLD then
    { action := some ("clarify".data), why := some (.belowThreshold confidence) }
  else
    let intent := d.intent
    if intent = ("set_preference".data) then
      { action := some ("store_preference".data), key := some ("meeting_time".data),
        value := some ui, why := some .settingPref }
    else if intent = ("schedule_meeting".data) then
      match pref with
      | some p =>
        { action := some ("schedule_with_preference".data), time := some p,
          why := some (.foundPref p) }
      | none => { action := some ("schedule_default".data), why := some .noPref }
    else if intent = ("set_reminder".data) then
      { action := some ("store_task".data), task := some ui,
        time := some (d.time.getD ("No time detected".data)), person := d.person,
        why := some (.reminderParts d.time d.person) }
    else if intent = ("retrieve_task".data) then
      match search with
      | some ctx =>
        { action := some ("semantic_recall".data), context := some ctx,
          why := some (.recallFound (ctx.score.getD 0)) }
      | none =>
        { action := some ("semantic_recall".data), context := none,
          why := some .recallNone }
    else if intent = ("create_task".data) then
      { action := some ("store_task".data), task := some ui,
        time := some (d.time.getD ("No time detected".data)), person := d.person,
        why := some (.taskParts d.time d.person) }
    else
      { action := some ("unknown".data), why := some .notRecognized }

/-! ### Action dispatcher (`action_engine.py`)

The external memory collaborators (`memory_system`, outside this
repository) are modelled as an explicit `World`; each narrow call
appends to the matching journal. -/

structure World where
  conv : List Str := []
  prefWrites : List (Option Str × Option Str) := []
  taskWrites : List (Str × Str) := []
deriving DecidableEq

/-- An apostrophe (kept out of string literals). -/
def apos : Char := Char.ofNat 39

/-- Renders a score with two decimals, standing in for Python
`f"{score:.2f}"` (no claim inspects the digits; only used inside a
response that already starts with a fixed non-empty prefix). -/
def fmt2 (q : ℚ) : Str :=
  let shifted := q * 100 + mkRat 1 2
  let c : ℤ := Int.fdiv shifted.num shifted.den
  let n := c.natAbs
  (if c < 0 then ['-'] else []) ++ (Nat.repr (n / 100)).data ++ ['.'] ++
    (if n % 100 < 10 then ['0'] else []) ++ (Nat.repr (n % 100)).data

/-- `execute(action_data, user_input)`: returns the response string and
the updated external world.  `add_conversation(user_input)` runs first,
unconditionally. -/
def execute (ad : ActionData) (ui : Str) (w0 : World) : Str × World :=
  let w := { w0 with conv := w0.conv ++ [ui] }
  let action := ad.action.getD ("unknown".data)
  if action = ("store_preference".data) then
    ("Preference saved successfully: ".data ++ ad.key.getD ("unknown".data),
     { w with prefWrites := w.prefWrites ++ [(ad.key, ad.value)] })
  else if action = ("schedule_with_preference".data) then
    ("Meeting scheduled based on your preference: ".data ++
       ad.time.getD ("default time".data), w)
  else if action = ("schedule_default".data) then
    ("Meeting scheduled at default time".data, w)
  else if action = ("store_task".data) then
    let task := ad.task.getD ui
    let time := ad.time.getD ("No time specified".data)
    let w := { w with taskWrites := w.taskWrites ++ [(task, time)] }
    let r := "Task saved".data
    let r := if time ≠ [] ∧ time ≠ ("No time detected".data) ∧
        time ≠ ("No time specified".data) then r ++ " for ".data ++ time else r
    let r := match ad.person with
      | some p => if p = [] then r else r ++ " with ".data ++ p
      | none => r
    (r ++ ".".data, w)
  else if action = ("semantic_recall".data) then
    match ad.context with
    | some ctx =>
      ("I remember you mentioned: ".data ++ ctx.found.getD ("No match found".data) ++
         " (Relevance: ".data ++ fmt2 (ctx.score.getD 0) ++ ")".data, w)
    | none => ("No relevant memory found for your query".data, w)
  else if action = ("clarify".data) then
    (("Could you please clarify your request?".data ++
       " I want to make sure I understand correctly.".data), w)
  else if action = ("unknown".data) then
    ("I didn".data ++ [apos] ++ "t understand that request. Could you rephrase it?".data, w)
  else
    ("Action ".data ++ [apos] ++ action ++ [apos] ++ " executed successfully".data, w)

/-- The seven action labels the dispatcher recognizes. -/
def sevenActions : List Str :=
  ["store_preference".data, "schedule_with_preference".data,
   "schedule_default".data, "store_task".data, "semantic_recall".data,
   "clarify".data, "unknown".data]

/-- Failure of the selected alternate backend's initialization or
inference, expressed on the environment: the corresponding collaborator
field is `none`. -/
def backendFailed (env : Env) (b : Str) : Prop :=
  (b = "Sentence Transformers".data ∧ env.stSims = none) ∨
  (b = "HuggingFace".data ∧ env.hfTop = none) ∨
  (b = "Claude API".data ∧ env.claudeResp = none)

/-! ## Helper lemmas -/

/-- The rule-based classifier returns one of six literal pairs. -/
theorem rbCases (t : Str) :
    detect_intent_rule_based t = ("retrieve_task".data, mkRat 8 10) ∨
    detect_intent_rule_based t = ("set_preference".data, mkRat 9 10) ∨
    detect_intent_rule_based t = ("set_reminder".data, mkRat 9 10) ∨
    detect_intent_rule_based t = ("schedule_meeting".data, mkRat 9 10) ∨
    detect_intent_rule_based t = ("create_task".data, mkRat 85 100) ∨
    detect_intent_rule_based t = ("unknown".data, mkRat 3 10) := by
  simp only [detect_intent_rule_based]
  split_ifs <;> simp

/-- Bounds and label membership for the rule-based classifier. -/
theorem rb_bounds (t : Str) :
    0 ≤ (detect_intent_rule_based t).2 ∧ (detect_intent_rule_based t).2 ≤ 1 ∧
      (detect_intent_rule_based t).1 ∈ intents6 := by
  rcases rbCases t with h | h | h | h | h | h <;> rw [h] <;> refine ⟨?_, ?_, ?_⟩ <;> decide

/-- The planner emits `clarify` exactly below the threshold: no other
branch of `reason` produces that action label. -/
theorem reason_action_clarify (pref : Option Str) (search : Option SearchCtx)
    (d : AnalyzeResult) (ui : Str) :
    (reason pref search d ui).action = some ("clarify".data) ↔
      d.confidence < CONFIDENCE_THRESHOLD := by
  simp only [reason]
  by_cases h : d.confidence < CONFIDENCE_THRESHOLD
  · simp [h]
  · simp only [if_neg h, h, iff_false]
    split_ifs <;>
      first
      | exact False.elim (by assumption)
      | exact of_decide_eq_true rfl
      | (rcases pref with _ | p <;> exact of_decide_eq_true rfl)
      | (rcases search with _ | ctx <;> exact of_decide_eq_true rfl)

/-! ## Claims -/

/-- Claim C2, as stated, is refuted here: `"that is what he said"`
contains both `"what"` and `"said"`, yet the rule-based classifier
returns `unknown`/0.3 — the code tests `text.startswith("what")`, not
containment of `"what"`. -/
theorem intent_C2_cex :
    hasSub ("what".data) (lower ("that is what he said".data)) = true ∧
    hasSub ("said".data) (lower ("that is what he said".data)) = true ∧
    detect_intent_rule_based ("that is what he said".data) = ("unknown".data, mkRat 3 10) := by
  decide

/-- Claim C2 (amended): a text containing one of the four retrieval
phrases, or whose lower-casing STARTS WITH `"what"` and contains one of
told/said/mentioned/earlier, is classified `retrieve_task` with
confidence 0.8, regardless of any reminder or scheduling keyword it also
contains. -/
theorem intent_C2_amended (text : Str)
    (h : containsAny (lower text) ["what have i".data, "did i mention".data,
           "do you remember".data, "tell me about".data] = true ∨
         (leads ("what".data) (lower text) = true ∧
          containsAny (lower text) ["told".data, "said".data,
            "mentioned".data, "earlier".data] = true)) :
    detect_intent_rule_based text = ("retrieve_task".data, mkRat 8 10) := by
  unfold detect_intent_rule_based
  by_cases h6 : containsAny (lower text) ["what have i".data, "what did".data,
      "did i mention".data, "do you remember".data, "what have you told".data,
      "tell me about".data] = true
  · simp [h6]
  · rcases h with h | ⟨h1, h2⟩
    · exfalso
      apply h6
      simp only [containsAny, List.any_cons, List.any_nil,
        Bool.or_eq_true, Bool.or_false] at h ⊢
      tauto
    · simp [h6, h1, h2]

/-- Witness for C2 (amended), at the priority-ordering input named by the
claim: `"did i mention anything about the meeting"` yields
`retrieve_task`/0.8 even though it contains `"meeting"`. -/
theorem intent_C2_witness :
    detect_intent_rule_based ("did i mention anything about the meeting".data) =
      ("retrieve_task".data, mkRat 8 10) :=
  intent_C2_amended _ (Or.inl (by decide))

/-- Claim C4: the planner returns the `clarify` action exactly when the
confidence is strictly below 0.75, whatever the intent and before any
intent-specific rule; in particular confidence 0.75 does not clarify and
0.7499 does. -/
theorem plan_C4 (pref : Option Str) (search : Option SearchCtx)
    (d : AnalyzeResult) (ui : Str) :
    (reason pref search d ui).action = some ("clarify".data) ↔
      d.confidence < mkRat 75 100 :=
  reason_action_clarify pref search d ui

/-- Claim C10: under the rule-based backend, the planner clarifies if and
only if the classified intent is `unknown` — every non-unknown
rule-based confidence (0.8, 0.85, 0.9) passes the 0.75 gate and the
`unknown` confidence 0.3 fails it. -/
theorem plan_C10 (pref : Option Str) (search : Option SearchCtx)
    (t ui : Str) (ents : List (Str × EKind)) (time person : Option Str) :
    (reason pref search
        ⟨(detect_intent_rule_based t).1, ents, time, person,
         (detect_intent_rule_based t).2⟩ ui).action = some ("clarify".data) ↔
      (detect_intent_rule_based t).1 = "unknown".data := by
  rw [reason_action_clarify]
  rcases rbCases t with h | h | h | h | h | h <;> rw [h] <;>
    exact of_decide_eq_true rfl

/-- Inner example loop of the sentence-transformers scan: the best score
never decreases, and the result either is the starting pair or carries
this loop's intent together with one of the computed similarities. -/
theorem stFold_inner (sims : Str → ℚ) (intent : Str) (l : List Str) :
    ∀ best : Str × ℚ,
      best.2 ≤ (l.foldl (stStep sims intent) best).2 ∧
      (l.foldl (stStep sims intent) best = best ∨
        ((l.foldl (stStep sims intent) best).1 = intent ∧
          ∃ ex, (l.foldl (stStep sims intent) best).2 = sims ex)) := by
  induction l with
  | nil => intro best; exact ⟨le_refl _, Or.inl rfl⟩
  | cons x xs ih =>
    intro best
    rw [List.foldl_cons]
    rcases ih (stStep sims intent best x) with ⟨h1, h2⟩
    constructor
    · refine le_trans ?_ h1
      by_cases hx : best.2 < sims x
      · simp only [stStep, if_pos hx]
        exact le_of_lt hx
      · simp only [stStep, if_neg hx]
        exact le_refl _
    · rcases h2 with h2 | ⟨ha, ex, hb⟩
      · rw [h2]
        by_cases hx : best.2 < sims x
        · exact Or.inr ⟨by simp only [stStep, if_pos hx], x,
            by simp only [stStep, if_pos hx]⟩
        · exact Or.inl (by simp only [stStep, if_neg hx])
      · exact Or.inr ⟨ha, ex, hb⟩

/-- Outer loop of the sentence-transformers scan. -/
theorem stFold_outer (sims : Str → ℚ) (L : List (Str × List Str)) :
    ∀ best : Str × ℚ,
      best.2 ≤ (L.foldl (fun b p => p.2.foldl (stStep sims p.1) b) best).2 ∧
      (L.foldl (fun b p => p.2.foldl (stStep sims p.1) b) best = best ∨
        ((L.foldl (fun b p => p.2.foldl (stStep sims p.1) b) best).1 ∈
            L.map Prod.fst ∧
          ∃ ex, (L.foldl (fun b p => p.2.foldl (stStep sims p.1) b) best).2 =
            sims ex)) := by
  induction L with
  | nil => intro best; exact ⟨le_refl _, Or.inl rfl⟩
  | cons p ps ih =>
    intro best
    rw [List.foldl_cons]
    rcases ih (p.2.foldl (stStep sims p.1) best) with ⟨h1, h2⟩
    rcases stFold_inner sims p.1 p.2 best with ⟨g1, g2⟩
    refine ⟨le_trans g1 h1, ?_⟩
    rcases h2 with h2 | ⟨ha, hex⟩
    · rw [h2]
      rcases g2 with g2 | ⟨ga, ex, gb⟩
      · exact Or.inl g2
      · exact Or.inr ⟨by rw [List.map_cons, ga]; exact List.mem_cons_self _ _, ex, gb⟩
    · refine Or.inr ⟨?_, hex⟩
      simp only [List.map_cons]
      exact List.mem_cons_of_mem _ ha

/-- Bounds for the sentence-transformers scan, assuming every cosine
similarity delivered by the external model is at most 1. -/
theorem stScan_bounds (sims : Str → ℚ) (hb : ∀ ex, sims ex ≤ 1) :
    mkRat 3 10 ≤ (stScan sims).2 ∧ (stScan sims).2 ≤ 1 ∧
      (stScan sims).1 ∈ intents6 := by
  obtain ⟨h1, h2⟩ := stFold_outer sims INTENT_EXAMPLES ("unknown".data, mkRat 3 10)
  refine ⟨h1, ?_, ?_⟩
  · rcases h2 with h2 | ⟨_, ex, hex⟩
    · rw [show stScan sims = ("unknown".data, mkRat 3 10) from h2]
      decide
    · exact le_of_eq_of_le hex (hb ex)
  · rcases h2 with h2 | ⟨ha, _⟩
    · rw [show stScan sims = ("unknown".data, mkRat 3 10) from h2]
      decide
    · simp only [INTENT_EXAMPLES, List.map_cons, List.map_nil, List.mem_cons,
        List.mem_singleton, List.not_mem_nil, or_false] at ha
      rcases ha with h | h | h | h | h <;>
        rw [show (stScan sims).1 = _ from h] <;> decide

/-- The zero-shot label map never leaves the six intents. -/
theorem templateToIntent_mem (l : Str) : templateToIntent l ∈ intents6 := by
  unfold templateToIntent
  split_ifs <;> decide

/-- Bounds for `detectorDetect`, assuming externally delivered scores lie
in the documented ranges. -/
theorem detectorDetect_bounds (env : Env) (backend : Str) (apiKey : Option Str)
    (hst : ∀ f, env.stSims = some f → ∀ ex, f ex ≤ 1)
    (hhf : ∀ l sc, env.hfTop = some (l, sc) → 0 ≤ sc ∧ sc ≤ 1)
    (hcl : ∀ i c, env.claudeResp = some (i, c) → 0 ≤ c ∧ c ≤ 1) :
    0 ≤ (detectorDetect env backend apiKey).2 ∧
      (detectorDetect env backend apiKey).2 ≤ 1 ∧
      (detectorDetect env backend apiKey).1 ∈ intents6 := by
  unfold detectorDetect
  split_ifs
  · -- huggingface
    rcases hf : env.hfTop with _ | ⟨l, sc⟩
    · simp only [detect_intent_huggingface, hf]
      refine ⟨by decide, by decide, by decide⟩
    · simp only [detect_intent_huggingface, hf]
      obtain ⟨hs1, hs2⟩ := hhf l sc hf
      exact ⟨hs1, hs2, templateToIntent_mem l⟩
  · -- sentence transformers
    rcases hs : env.stSims with _ | f
    · simp only [detect_intent_sentence_transformers, hs]
      refine ⟨by decide, by decide, by decide⟩
    · simp only [detect_intent_sentence_transformers, hs]
      obtain ⟨hb1, hb2, hb3⟩ := stScan_bounds f (hst f hs)
      exact ⟨le_trans (by decide) hb1, hb2, hb3⟩
  · -- claude
    unfold detect_intent_claude
    rcases hk : pyOr apiKey env.envApiKey with _ | k
    · exact ⟨of_decide_eq_true rfl, of_decide_eq_true rfl, of_decide_eq_true rfl⟩
    · rcases hr : env.claudeResp with _ | ⟨i, c⟩
      · exact ⟨of_decide_eq_true rfl, of_decide_eq_true rfl, of_decide_eq_true rfl⟩
      · obtain ⟨hc1, hc2⟩ := hcl i c hr
        by_cases hm : i ∈ intents6
        · simp only [hr, if_pos hm]
          exact ⟨hc1, hc2, hm⟩
        · simp only [hr, if_neg hm]
          exact ⟨of_decide_eq_true rfl, of_decide_eq_true rfl, of_decide_eq_true rfl⟩
  · refine ⟨by decide, by decide, by decide⟩

/-- Bounds for the intent-selection part of `analyze_input`. -/
theorem analyzeIntent_bounds (env : Env) (text : Str) (ib key : Option Str)
    (hst : ∀ f, env.stSims = some f → ∀ ex, f ex ≤ 1)
    (hhf : ∀ l sc, env.hfTop = some (l, sc) → 0 ≤ sc ∧ sc ≤ 1)
    (hcl : ∀ i c, env.claudeResp = some (i, c) → 0 ≤ c ∧ c ≤ 1) :
    0 ≤ (analyzeIntent env text ib key).2 ∧
      (analyzeIntent env text ib key).2 ≤ 1 ∧
      (analyzeIntent env text ib key).1 ∈ intents6 := by
  rcases ib with _ | b
  · exact rb_bounds text
  · simp only [analyzeIntent]
    split_ifs <;>
      first
      | exact rb_bounds text
      | exact detectorDetect_bounds env (backendMap b) key hst hhf hcl
      | exact detectorDetect_bounds env (backendMap b) none hst hhf hcl

/-! ## Claims C1, C3, C6 -/

/-- Claim C1 concerns a code bug: with the Claude backend selected and no
key in the argument or the environment, `analyze_input` silently returns
the rule-based classification — here `("set_reminder", 0.9)`, bitwise
identical to what the deterministic backend produces, with no
caller-visible credentials condition.  (The source raises
`ValueError("Claude API key required")`, but inside the `try` whose
`except Exception` catches it and falls back.) -/
theorem intent_C1_silent_fallback :
    ((analyze_input ⟨none, none, none, none, false⟩
        ("remind me to pay the bill".data) (some ("Claude API".data)) none).intent,
     (analyze_input ⟨none, none, none, none, false⟩
        ("remind me to pay the bill".data) (some ("Claude API".data)) none).confidence) =
      detect_intent_rule_based ("remind me to pay the bill".data) ∧
    detect_intent_rule_based ("remind me to pay the bill".data) =
      ("set_reminder".data, mkRat 9 10) := by
  refine ⟨rfl, by decide⟩

/-- Claim C3, as stated, is refuted here: the remote Claude reply
`("create_task", 1.5)` is passed through unclamped, so the returned
confidence exceeds 1. -/
theorem intent_C3_cex :
    1 < (analyze_input ⟨some ("k".data), none, none,
        some ("create_task".data, mkRat 3 2), false⟩
      ("x".data) (some ("Claude API".data)) (some ("k".data))).confidence := by
  decide

/-- Claim C3 (amended): provided every externally delivered score lies in
the documented range — each sentence-transformers cosine similarity is at
most 1, the zero-shot top score lies in [0,1], and the confidence of the
(unchecked) remote Claude reply lies in [0,1] — `analyze_input` returns a
confidence in [0,1] and one of the six defined intents; internal backend
failures surface as the default 0.3 before the rule-based fallback. -/
theorem intent_C3_amended (env : Env) (text : Str) (ib key : Option Str)
    (hst : ∀ f, env.stSims = some f → ∀ ex, f ex ≤ 1)
    (hhf : ∀ l sc, env.hfTop = some (l, sc) → 0 ≤ sc ∧ sc ≤ 1)
    (hcl : ∀ i c, env.claudeResp = some (i, c) → 0 ≤ c ∧ c ≤ 1) :
    0 ≤ (analyze_input env text ib key).confidence ∧
      (analyze_input env text ib key).confidence ≤ 1 ∧
      (analyze_input env text ib key).intent ∈ intents6 :=
  analyzeIntent_bounds env text ib key hst hhf hcl

/-- Witness for C3 (amended): vacuous external hypotheses on an
all-failure environment, rule-based path. -/
theorem intent_C3_witness :
    0 ≤ (analyze_input ⟨none, none, none, none, false⟩
        ("hello there".data) none none).confidence ∧
      (analyze_input ⟨none, none, none, none, false⟩
        ("hello there".data) none none).confidence ≤ 1 ∧
      (analyze_input ⟨none, none, none, none, false⟩
        ("hello there".data) none none).intent ∈ intents6 :=
  intent_C3_amended ⟨none, none, none, none, false⟩ ("hello there".data) none none
    (fun _ h => Option.noConfusion h) (fun _ _ h => Option.noConfusion h)
    (fun _ _ h => Option.noConfusion h)

/-- Claim C6: whenever the selected alternate backend's initialization or
inference fails, `analyze_input` returns exactly the `(intent,
confidence)` pair of the deterministic rule-based backend for the same
text. -/
theorem intent_C6 (env : Env) (text : Str) (key : Option Str) (b : Str)
    (h : backendFailed env b) :
    ((analyze_input env text (some b) key).intent,
     (analyze_input env text (some b) key).confidence) =
      detect_intent_rule_based text := by
  obtain ⟨ek, st, hfT, cr, mf⟩ := env
  rcases h with ⟨hb, hf⟩ | ⟨hb, hf⟩ | ⟨hb, hf⟩ <;> subst hb
  · have h2 : st = none := hf
    subst h2; cases mf <;> rfl
  · have h2 : hfT = none := hf
    subst h2; cases mf <;> rfl
  · have h2 : cr = none := hf
    subst h2; cases mf
    · rcases key with _ | k
      · rcases ek with _ | e <;> rfl
      · rfl
    · rfl

/-- Witness for C6: a failed HuggingFace pipeline falls back to the
rule-based result on a reminder text. -/
theorem intent_C6_witness :
    backendFailed ⟨none, none, none, none, false⟩ ("HuggingFace".data) ∧
    ((analyze_input ⟨none, none, none, none, false⟩
        ("remind me about the deadline".data) (some ("HuggingFace".data)) none).intent,
     (analyze_input ⟨none, none, none, none, false⟩
        ("remind me about the deadline".data) (some ("HuggingFace".data)) none).confidence) =
      detect_intent_rule_based ("remind me about the deadline".data) :=
  ⟨Or.inr (Or.inl ⟨rfl, rfl⟩),
   intent_C6 ⟨none, none, none, none, false⟩ ("remind me about the deadline".data)
     none ("HuggingFace".data) (Or.inr (Or.inl ⟨rfl, rfl⟩))⟩

/-! ## Claims C5, C7, C8 (entity extraction) -/

/-- Claim C5, as stated, is refuted here: on
`"remind me to pay electricity bill on 20 feb 2026 at 7 pm"` the time
patterns match `"20 feb 2026"`, `"7 pm"` and `"20 feb"`, yet `"7 pm"` is
never appended to the entity list — a match strictly shorter than the
current dominant time is dropped entirely, because the append statement
sits inside the dominance-update branch. -/
theorem extract_C5_cex :
    timeMatches ("remind me to pay electricity bill on 20 feb 2026 at 7 pm".data) =
      ["20 feb 2026".data, "7 pm".data, "20 feb".data] ∧
    ("7 pm".data, EKind.TIME) ∉
      (analyzeEntities
        ("remind me to pay electricity bill on 20 feb 2026 at 7 pm".data)).1 := by
  decide

/-- Claim C5 (amended): a time match strictly shorter than the current
dominant time is discarded entirely (neither recorded nor made
dominant); a match at least as long as the dominant (or any match when
no dominant is set) becomes dominant and is appended as a TIME entity
unless the list's last entity is already an identical TIME entity. -/
theorem pushTime_eq (ents : List (Str × EKind)) (m : Str) :
    pushTime ents m =
      ((if ents.getLast? = some (m, EKind.TIME) then ents
        else ents ++ [(m, EKind.TIME)]), some m) := by
  unfold pushTime
  rcases hl : ents.getLast? with _ | e
  · have he : ents = [] := List.getLast?_eq_none_iff.mp hl
    subst he
    simp
  · dsimp only
    by_cases heq : e = (m, EKind.TIME)
    · subst heq
      simp
    · rw [if_neg heq,
        if_neg (show ¬some e = some (m, EKind.TIME) from by simpa using heq)]

theorem extract_C5_amended (ents : List (Str × EKind)) (t : Option Str) (m : Str) :
    (∀ td, t = some td → m.length < td.length → timeStep (ents, t) m = (ents, t)) ∧
    ((t = none ∨ ∃ td, t = some td ∧ td.length ≤ m.length) →
      (timeStep (ents, t) m).2 = some m ∧
      (timeStep (ents, t) m).1 =
        (if ents.getLast? = some (m, EKind.TIME) then ents
         else ents ++ [(m, EKind.TIME)])) := by
  constructor
  · intro td ht hlt
    subst ht
    simp only [timeStep]
    rw [if_neg (by omega : ¬td.length ≤ m.length)]
  · intro hcase
    rcases hcase with ht | ⟨td, ht, hle⟩
    · subst ht
      simp [timeStep, pushTime_eq]
    · subst ht
      simp only [timeStep]
      rw [if_pos hle, pushTime_eq]
      exact ⟨rfl, rfl⟩

/-- Witness for C5 (amended): a shorter match against dominant
`"abcd"` is dropped; a first match becomes dominant and is recorded. -/
theorem extract_C5_witness :
    timeStep ([], some ("abcd".data)) ("x".data) = ([], some ("abcd".data)) ∧
    (timeStep ([], none) ("x".data)).2 = some ("x".data) :=
  ⟨(extract_C5_amended [] (some ("abcd".data)) ("x".data)).1 ("abcd".data) rfl
      (by decide),
   ((extract_C5_amended [] none ("x".data)).2 (Or.inl rfl)).1⟩

/-- Claim C7, as stated, is refuted here: on
`"meet kavita mam and alice sir"` the honorific strategy succeeds twice,
appending TWO person entities (its loop has no break), with the last
match `"alice sir"` dominant. -/
theorem extract_C7_cex :
    (analyzeEntities ("meet kavita mam and alice sir".data)).1 =
      [("kavita mam".data, EKind.PERSON), ("alice sir".data, EKind.PERSON)] ∧
    (analyzeEntities ("meet kavita mam and alice sir".data)).2.2 =
      some ("alice sir".data) := by
  decide

/-- Claim C7 (amended): if the honorific strategy matches, it appends one
PERSON entity per match and the LAST match becomes dominant, with the
later strategies skipped; otherwise the first of the remaining
strategies that succeeds appends exactly one PERSON entity (the
dominant), and a failed extraction appends none. -/
theorem extract_C7_amended (text : Str) :
    (findIter matchS1 text ≠ [] →
      (personSection text).1 =
        (findIter matchS1 text).map (fun n => (n, EKind.PERSON)) ∧
      (personSection text).2 = (findIter matchS1 text).getLast?) ∧
    (findIter matchS1 text = [] →
      (personSection text).1.length ≤ 1 ∧
      ((personSection text).2 = none ↔ (personSection text).1 = []) ∧
      (∀ n, (personSection text).2 = some n →
        (personSection text).1 = [(n, EKind.PERSON)])) := by
  constructor
  · intro h
    rcases hm : findIter matchS1 text with _ | ⟨a, ms⟩
    · exact (h hm).elim
    · simp only [personSection, hm]
      refine ⟨?_, ?_⟩ <;> trivial
  · intro h
    simp only [personSection, h]
    rcases h2 : firstValid2 (findIterG matchS2 text) with _ | n
    · rcases h3 : firstValid3 (findIter matchS3 text) with _ | n
      · exact ⟨by simp, by simp, fun n hn => by simp at hn⟩
      · refine ⟨by simp, by simp, fun n' hn => ?_⟩
        obtain rfl : n = n' := by simpa using hn
        rfl
    · refine ⟨by simp, by simp, fun n' hn => ?_⟩
      obtain rfl : n = n' := by simpa using hn
      rfl

/-- Witness for C7 (amended): the two honorific matches of the
counterexample input, and the single-entity shape on a strategy-2
input. -/
theorem extract_C7_witness :
    (personSection ("meet kavita mam and alice sir".data)).1 =
      (findIter matchS1 ("meet kavita mam and alice sir".data)).map
        (fun n => (n, EKind.PERSON)) ∧
    (personSection ("meet kavita mam and alice sir".data)).2 =
      (findIter matchS1 ("meet kavita mam and alice sir".data)).getLast? ∧
    (personSection ("send an email to john".data)).1.length ≤ 1 :=
  ⟨((extract_C7_amended _).1 (by decide)).1,
   ((extract_C7_amended _).1 (by decide)).2,
   ((extract_C7_amended ("send an email to john".data)).2 (by decide)).1⟩

/-- Claim C8 concerns a code bug: on `"wake me up for Tomorrow"` the
dominant person IS the temporal word `"Tomorrow"` — strategy 2's regex is
compiled with IGNORECASE, so its group captures the capitalized word,
while its stop-list holds only the lowercase form (strategy 3's
capitalized stop-list, which does hold `"Tomorrow"`, is never reached). -/
theorem extract_C8_stop_listed :
    (analyzeEntities ("wake me up for Tomorrow".data)).2.2 =
      some ("Tomorrow".data) ∧
    lower ("Tomorrow".data) ∈ excluded2 ∧ ("Tomorrow".data) ∈ excluded3 := by
  decide

/-! ## Claim C9 (action dispatcher) -/

set_option linter.unusedTactic false in
/-- Every dispatch returns a non-empty response and appends the user
input to the conversation log exactly once. -/
theorem exec_resp_log (ad : ActionData) (ui : Str) (w0 : World) :
    (execute ad ui w0).1 ≠ [] ∧ (execute ad ui w0).2.conv = w0.conv ++ [ui] := by
  simp only [execute]
  split_ifs <;>
    first
    | exact ⟨List.cons_ne_nil _ _, rfl⟩
    | (rcases ad.context with _ | ctx <;> exact ⟨List.cons_ne_nil _ _, rfl⟩)
    | (rcases ad.person with _ | p <;> (try split_ifs) <;>
        exact ⟨List.append_ne_nil_of_right_ne_nil _ (List.cons_ne_nil _ _), rfl⟩)

/-- An unrecognized action label produces the generic success response. -/
theorem exec_unrecognized (ad : ActionData) (ui : Str) (w0 : World)
    (h : ad.action.getD ("unknown".data) ∉ sevenActions) :
    (execute ad ui w0).1 =
      "Action ".data ++ [apos] ++ ad.action.getD ("unknown".data) ++ [apos] ++
        " executed successfully".data := by
  simp only [sevenActions, List.mem_cons, List.not_mem_nil, or_false, not_or] at h
  obtain ⟨h1, h2, h3, h4, h5, h6, h7⟩ := h
  simp only [execute]
  rw [if_neg h1, if_neg h2, if_neg h3, if_neg h4, if_neg h5, if_neg h6, if_neg h7]

/-- Claim C9: for every action plan — including one whose label is not
among the seven recognized actions, which yields the generic "executed
successfully" message — the dispatcher returns a non-empty response and
appends the interaction to the conversation log exactly once. -/
theorem action_C9 :
    (∀ (ad : ActionData) (ui : Str) (w0 : World),
      (execute ad ui w0).1 ≠ [] ∧ (execute ad ui w0).2.conv = w0.conv ++ [ui]) ∧
    (∀ (ad : ActionData) (ui : Str) (w0 : World),
      ad.action.getD ("unknown".data) ∉ sevenActions →
      (execute ad ui w0).1 =
        "Action ".data ++ [apos] ++ ad.action.getD ("unknown".data) ++ [apos] ++
          " executed successfully".data) :=
  ⟨exec_resp_log, exec_unrecognized⟩

/-- Witness for C9 at the unrecognized label `"dance"`. -/
theorem action_C9_witness :
    ({ action := some ("dance".data) } : ActionData).action.getD ("unknown".data) ∉
        sevenActions ∧
    (execute { action := some ("dance".data) } ("hi".data) {}).1 =
      "Action ".data ++ [apos] ++ "dance".data ++ [apos] ++
        " executed successfully".data ∧
    (execute { action := some ("dance".data) } ("hi".data) {}).2.conv =
      ["hi".data] :=
  ⟨by decide, action_C9.2 _ _ _ (by decide),
   (action_C9.1 { action := some ("dance".data) } ("hi".data) {}).2⟩

end CAA
